import Mathlib

/-!
# Verification of the fetch–dedup–rank–cache pipeline (src/main.py)

Shallow embedding of the news-scraper pipeline in `src/main.py`:
the `Item` record and its fingerprint (`Item._calc_hash`), the dedup
ledger (`seen_items` table) with the suppression check `is_item_seen`,
the retrying page fetcher `fetch_html_content` (tenacity decorator),
the feed fetcher `fetch_feed`, the result-merging loop of `main`, and
the ranker (sort by `fetched` descending, split top 6 vs rest).

External effects are modelled explicitly:
* the MD5 hash is an abstract parameter `md5 : String → String`
  (the claims only depend on what string is hashed, never on MD5
  internals);
* `rapidfuzz.fuzz.token_set_ratio` is an abstract parameter
  `ratio : String → String → Nat` (scores on a 0–100 scale);
* wall-clock instants (`datetime.utcnow`, the parsed `posted_at` /
  `expires_at` ISO strings) are modelled as `Nat` timestamps, since the
  code only ever compares them;
* network calls are modelled as oracles `Nat → Except Err _` giving the
  outcome of each successive attempt;
* `logging` calls are modelled as emitted `LogEvent` values.
-/

namespace NewsPipeline

/-- Fingerprint computation `Item._calc_hash` (src/main.py lines 59–61): the fingerprint is
`md5(f"{title}|{url}")`, a function of `title` and `url` only. -/
def calcHash (md5 : String → String) (title url : String) : String :=
  md5 (title ++ "|" ++ url)

/-- An `Item` (src/main.py lines 54–61): a record created by the fetchers
with its hash computed at construction time from `title` and `url`. -/
structure Item where
  title : String
  url : String
  body : String
  source : String
  type_ : String
  tags : List String
  fetched : String
  hash : String
deriving Repr, DecidableEq

/-- The `Item.__init__` constructor: stores the fields and sets
`self.hash = self._calc_hash()`. -/
def mkItem (md5 : String → String) (title url body source type_ : String)
    (tags : List String) (fetched : String) : Item :=
  { title := title, url := url, body := body, source := source,
    type_ := type_, tags := tags, fetched := fetched,
    hash := calcHash md5 title url }

/-- A row of the `seen_items` table (src/main.py lines 66–74):
`hash TEXT PRIMARY KEY, type, title, posted_at, expires_at`.
The two ISO timestamp columns are modelled as `Nat` instants. -/
structure Entry where
  hash : String
  type_ : String
  title : String
  posted_at : Nat
  expires_at : Nat
deriving Repr, DecidableEq

/-- The mapping `CONF["feed_types"]` from feed-type name to its
configuration, of which `is_item_seen` reads only the optional
`similarity_threshold`. -/
abbrev FeedTypes := List (String × Option Nat)

/-- Type resolution in `is_item_seen` (src/main.py lines 79–81):
`ft = raw_type if raw_type in CONF["feed_types"] else "political_news"`. -/
def resolveFt (feedTypes : FeedTypes) (rawType : String) : String :=
  if feedTypes.any (fun p => p.1 == rawType) then rawType else "political_news"

/-- The threshold lookup `cfg = CONF["feed_types"].get(ft, ...)` followed by
`cfg.get("similarity_threshold", 90)` (src/main.py lines 82 and 97). -/
def confThresh (feedTypes : FeedTypes) (ft : String) : Nat :=
  match feedTypes.find? (fun p => p.1 == ft) with
  | some p => p.2.getD 90
  | none => 90

/-- The suppression check `is_item_seen(conn, item)` (src/main.py lines 77–101), with the
database connection replaced by the list of `seen_items` rows (in table
order; `hash` is the primary key so the `fetchone` on `WHERE hash=?` is
`find?`), the clock by `now`, and `token_set_ratio` by `ratio`.
Mirrors the source exactly: a missing row or an expired row returns
`False`; otherwise the result is decided solely by the similarity loop
over `SELECT title FROM seen_items WHERE type=? AND hash!=?`. -/
def isItemSeen (ratio : String → String → Nat) (feedTypes : FeedTypes)
    (now : Nat) (db : List Entry) (item : Item) : Bool :=
  let ft := resolveFt feedTypes item.type_
  let thresh := confThresh feedTypes ft
  match db.find? (fun e => e.hash == item.hash) with
  | none => false
  | some row =>
    if now > row.expires_at then false
    else
      let similar := (db.filter (fun e => e.type_ == ft && e.hash != item.hash)).map Entry.title
      similar.any (fun other => thresh < ratio item.title other)

/-- One dedup pass of `main` (src/main.py lines 228–238) at the ledger
level: the fetched items are filtered through `is_item_seen`, and —
as in the source, which contains no `INSERT` into `seen_items`
anywhere — the ledger is returned unchanged. -/
def pipelineOnce (ratio : String → String → Nat) (feedTypes : FeedTypes)
    (now : Nat) (db : List Entry) (items : List Item) :
    List Item × List Entry :=
  (items.filter (fun i => !isItemSeen ratio feedTypes now db i), db)

/-- The failure of a network attempt: a timeout, a connection error, or
an HTTP error status raised by `raise_for_status`. -/
inductive Err where
  | timeout : Err
  | connError : Err
  | httpStatus (code : Nat) : Err
deriving Repr, DecidableEq

instance {ε α : Type} [DecidableEq ε] [DecidableEq α] :
    DecidableEq (Except ε α) := fun x y =>
  match x, y with
  | Except.ok a, Except.ok b =>
    if h : a = b then isTrue (by rw [h]) else isFalse (by simp [h])
  | Except.error a, Except.error b =>
    if h : a = b then isTrue (by rw [h]) else isFalse (by simp [h])
  | Except.ok _, Except.error _ => isFalse (by simp)
  | Except.error _, Except.ok _ => isFalse (by simp)

/-- The spec's transient/permanent taxonomy: timeouts, connection errors
and 5xx are transient; other HTTP errors (4xx) are permanent. -/
def isTransient : Err → Bool
  | Err.timeout => true
  | Err.connError => true
  | Err.httpStatus code => 500 ≤ code

/-- A `logging.warning` / `logging.error` call, tagged with the source
name interpolated into the message. -/
inductive LogEvent where
  | warning (src : String) : LogEvent
  | error (src : String) : LogEvent
deriving Repr, DecidableEq

/-- A successful `httpx` response: status code, `Content-Type` header
(`""` when absent, as `headers.get("Content-Type", "")`), and body text. -/
structure HttpResponse where
  status : Nat
  contentType : String
  body : String
deriving Repr, DecidableEq

/-- A feedparser entry: `e.get("title", "")`, `e.get("link", "")` and
`e.get("summary", "")` may each be absent. -/
structure FeedEntry where
  title : Option String
  link : Option String
  summary : Option String
deriving Repr, DecidableEq

/-- The result of `feedparser.parse`: the `bozo` malformedness flag and
the entry list. -/
structure Feed where
  bozo : Bool
  entries : List FeedEntry
deriving Repr, DecidableEq

/-- A configured source from `CONF["rss"]` / `CONF["html"]`: the fields
`fetch_feed` reads (`name`, `url`, `tags`). -/
structure Source where
  name : String
  url : String
  tags : List String
deriving Repr, DecidableEq

/-- Python's slice `s[:n]` on a string: the first `n` code points. -/
def pyTake (s : String) (n : Nat) : String :=
  String.mk (s.toList.take n)

/-- Python's substring test `needle in hay` on the character list. -/
def listContainsSub (needle : List Char) : List Char → Bool
  | [] => needle.isEmpty
  | c :: cs => needle.isPrefixOf (c :: cs) || listContainsSub needle cs

/-- Python's substring test `needle in hay` on strings. -/
def strContains (hay needle : String) : Bool :=
  listContainsSub needle.toList hay.toList

/-- The tenacity `wait_exponential(min=2, max=30)` schedule with the
default multiplier 1: the wait after (0-indexed) failed attempt `k` is
`2^k` clamped into `[2, 30]`. -/
def waitExp (k : Nat) : Nat :=
  max 2 (min (2 ^ k) 30)

/-- The tenacity retry loop: run attempt `k`; on failure, if a retry
slot remains, wait out the slot's backoff and try attempt `k+1`, else
give up with the final error.  The slots left are the remaining waits
of the backoff schedule (`stop_after_attempt(3)` grants two retries).
Returns the result and the backoff waits actually spent. -/
def retryGo (f : Nat → Except Err α) (k : Nat) :
    List Nat → Except Err α × List Nat
  | [] => (f k, [])
  | w :: ws =>
    match f k with
    | Except.ok v => (Except.ok v, [])
    | Except.error _ =>
      let r := retryGo f (k + 1) ws
      (r.1, w :: r.2)

/-- The page fetcher `fetch_html_content` (src/main.py lines 104–108):
a single GET wrapped in
`@retry(stop=stop_after_attempt(3), wait=wait_exponential(min=2, max=30))`,
which retries every exception (tenacity's default retry predicate) for
up to 3 attempts in total, waiting `waitExp k` after failed attempt `k`.
The per-attempt outcome is the oracle `f`. -/
def fetchHtmlContent (f : Nat → Except Err String) :
    Except Err String × List Nat :=
  retryGo f 0 [waitExp 0, waitExp 1]

/-- The feed fetcher `fetch_feed(src, client)` (src/main.py lines 110–141).  The single
`client.get` is attempt `0` of the oracle (the function has no retry
decorator, so later attempts are never consulted); `raise_for_status`
raises for status ≥ 400; a `Content-Type` containing neither `"xml"` nor
`"rss"` is skipped with a warning; otherwise the body is parsed by the
abstract `parse` (feedparser), a bozo feed logs a warning, and the first
20 entries yield items, skipping entries with an empty title or link.
Any exception is caught, logged as an error, and yields `[]`. -/
def fetchFeed (md5 : String → String) (parse : String → Feed)
    (f : Nat → Except Err HttpResponse) (src : Source) (nowIso : String) :
    List Item × List LogEvent :=
  match f 0 with
  | Except.error _ => ([], [LogEvent.error src.name])
  | Except.ok resp =>
    if 400 ≤ resp.status then ([], [LogEvent.error src.name])
    else if !strContains resp.contentType "xml" && !strContains resp.contentType "rss" then
      ([], [LogEvent.warning src.name])
    else
      let feed := parse resp.body
      let logs := if feed.bozo then [LogEvent.warning src.name] else []
      let items := (feed.entries.take 20).filterMap (fun e =>
        let title := pyTake (e.title.getD "") 120
        let link := e.link.getD ""
        let body := pyTake (e.summary.getD "") 300
        if title != "" && link != "" then
          some (mkItem md5 title link body src.name "rss" src.tags nowIso)
        else none)
      (items, logs)

/-- The result-splitting loop of `main` (src/main.py lines 224–235):
each gathered result is skipped when it is an exception (`continue`,
with no logging and no failure counter); an RSS result contributes its
items filtered through `is_item_seen`; an HTML result is parsed by its
source's `parse_html` (the abstract parser paired with it) and filtered
likewise.  Returns `(rss_items, html_items)`. -/
def mergeResults (seen : Item → Bool)
    (rssResults : List (Except Err (List Item)))
    (htmlResults : List ((String → List Item) × Except Err String)) :
    List Item × List Item :=
  (rssResults.foldl (fun acc r =>
      match r with
      | Except.error _ => acc
      | Except.ok items => acc ++ items.filter (fun i => !seen i)) [],
   htmlResults.foldl (fun acc pr =>
      match pr.2 with
      | Except.error _ => acc
      | Except.ok html => acc ++ (pr.1 html).filter (fun i => !seen i)) [])

/-- The fetch-and-merge phase of `main` for a configuration of HTML
sources only (src/main.py lines 216–235): each source's content is
fetched through `fetch_html_content` (whose own code path contains no
logging), the gathered results are merged by the splitting loop, and
the log events emitted during the whole phase are collected.  Since
neither `fetch_html_content` nor the merge loop logs anything, the
phase's log stream is empty. -/
def runHtmlPhase (seen : Item → Bool)
    (sources : List ((String → List Item) × (Nat → Except Err String))) :
    List Item × List LogEvent :=
  let results := sources.map (fun pr => (pr.1, (fetchHtmlContent pr.2).1))
  ((mergeResults seen [] results).2, [])

/-- Stable descending insertion (by the `fetched` key): `x` passes over
the entries with a strictly greater key and lands before the first entry
whose key is `≤` its own, so equal keys keep their original order.
Python compares the ISO-timestamp key strings code point by code point,
which is exactly the lexicographic order on their character lists. -/
def insertDesc (x : Item) : List Item → List Item
  | [] => [x]
  | y :: ys =>
    if x.fetched.toList < y.fetched.toList then y :: insertDesc x ys
    else x :: y :: ys

/-- The sort `sorted(items, key=lambda i: i["fetched"], reverse=True)`
(src/main.py lines 237–238).  Python's `sorted` is specified as a
stable sort; it is modelled by stable insertion sort, and the theorems
below establish exactly the stable-sort specification (permutation,
descending `fetched` order, tie stability), which determines the output
uniquely. -/
def sortDesc : List Item → List Item
  | [] => []
  | x :: xs => insertDesc x (sortDesc xs)

/-- The ranking phase of `main` (src/main.py lines 237–246): sort all
new items by `fetched` descending, optionally truncate to
`max_items * 2` when `max_items` is truthy (it is `None` on every call
site), and split into the trending head `[:6]` and the tail `[6:]`. -/
def rankSplit (maxItems : Option Nat) (items : List Item) :
    List Item × List Item :=
  let allNew := sortDesc items
  let allNew := match maxItems with
    | none => allNew
    | some m => if m != 0 then allNew.take (m * 2) else allNew
  (allNew.take 6, allNew.drop 6)

/-! ## Concrete instances used by witnesses and counterexamples -/

/-- A concrete hash function for evaluation: the identity on the
hashed payload (the theorems never depend on MD5 internals). -/
def idMd5 : String → String := fun s => s

/-- A concrete similarity score for evaluation: 100 for identical
strings, 0 otherwise (token_set_ratio scores identical titles 100). -/
def eqRatio : String → String → Nat := fun a b => if a == b then 100 else 0

/-- A concrete similarity score that never fires. -/
def zeroRatio : String → String → Nat := fun _ _ => 0

/-- A one-category configuration with the default threshold 90. -/
def exConf : FeedTypes := [("political_news", some 90)]

/-- A two-category configuration, for the cross-category claims. -/
def exConfC9 : FeedTypes := [("political_news", some 90), ("sports", some 90)]

def exItemC1 : Item :=
  mkItem idMd5 "Trade Deal Signed" "https://ex.org/a" "body" "srcA"
    "political_news" [] "2025-01-01"

/-- The unexpired ledger row exactly matching `exItemC1`. -/
def exRowC1 : Entry :=
  { hash := "Trade Deal Signed|https://ex.org/a", type_ := "political_news",
    title := "Trade Deal Signed", posted_at := 0, expires_at := 100 }

def exDbC1 : List Entry := [exRowC1]

def exItemC2 : Item :=
  mkItem idMd5 "Budget Vote Today" "https://ex.org/b" "body" "srcB"
    "political_news" [] "2025-01-02"

def exItemC3 : Item :=
  mkItem idMd5 "Election Results" "https://ex.org/c" "body" "srcC"
    "political_news" [] "2025-01-03"

/-- The unexpired exact-match row for `exItemC3` (gates the scan). -/
def exRowExactC3 : Entry :=
  { hash := "Election Results|https://ex.org/c", type_ := "political_news",
    title := "Election Results", posted_at := 0, expires_at := 100 }

/-- An expired same-category row with the identical title. -/
def exRowExpiredC3 : Entry :=
  { hash := "Election Results|https://ex.org/old", type_ := "political_news",
    title := "Election Results", posted_at := 0, expires_at := 10 }

def exItemC4 : Item :=
  mkItem idMd5 "Summit Concludes" "https://ex.org/d" "body" "srcD"
    "political_news" [] "2025-01-04"

/-- A ledger row matching `exItemC4` whose expiry is in the past. -/
def exRowC4 : Entry :=
  { hash := "Summit Concludes|https://ex.org/d", type_ := "political_news",
    title := "Summit Concludes", posted_at := 0, expires_at := 40 }

def exItemI1C9 : Item :=
  mkItem idMd5 "Short Headline" "https://ex.org/pol" "body" "srcE"
    "political_news" [] "2025-01-05"

def exItemI2C9 : Item :=
  mkItem idMd5 "Short Headline" "https://ex.org/spo" "body" "srcF"
    "sports" [] "2025-01-05"

/-- A ledger entry of the sports category with the identical title. -/
def exRowC9 : Entry :=
  { hash := "Short Headline|https://ex.org/spo", type_ := "sports",
    title := "Short Headline", posted_at := 0, expires_at := 100 }

/-- The unexpired exact-match row for `exItemI1C9`. -/
def exRowExactC9 : Entry :=
  { hash := "Short Headline|https://ex.org/pol", type_ := "political_news",
    title := "Short Headline", posted_at := 0, expires_at := 100 }

def exItemF1 : Item :=
  mkItem idMd5 "Late Story" "https://ex.org/f1" "body" "srcG"
    "political_news" [] "2025-01-02T10:00:00"

def exItemF2 : Item :=
  mkItem idMd5 "Early Story" "https://ex.org/f2" "body" "srcG"
    "political_news" [] "2025-01-01T10:00:00"

def exListC6 : List Item := [exItemF2, exItemF1]

def exSrcC7 : Source := { name := "feedA", url := "https://feeds.example/a", tags := [] }

def exRespC7 : HttpResponse :=
  { status := 200, contentType := "application/rss+xml", body := "feedbody" }

/-- A parse (feedparser) oracle yielding one well-formed entry. -/
def exParseC7 : String → Feed :=
  fun _ => { bozo := false,
             entries := [{ title := some "Headline", link := some "https://ex.org/h",
                           summary := some "sum" }] }

/-- An attempt oracle that fails transiently once, then succeeds. -/
def exAttemptsC7 : Nat → Except Err HttpResponse :=
  fun k => if k == 0 then Except.error Err.timeout else Except.ok exRespC7

/-- An attempt oracle that always succeeds. -/
def exOkAttemptsC7 : Nat → Except Err HttpResponse :=
  fun _ => Except.ok exRespC7

/-- The item `fetch_feed` builds from `exRespC7` under `exParseC7`. -/
def exItemC7 : Item :=
  mkItem idMd5 "Headline" "https://ex.org/h" "sum" "feedA" "rss" [] "2025-01-06"

/-- A page oracle that fails with a permanent 404 once, then succeeds. -/
def exAttempts404 : Nat → Except Err String :=
  fun k => if k == 0 then Except.error (Err.httpStatus 404) else Except.ok "page"

/-- A page oracle that fails transiently once, then succeeds. -/
def exAttemptsOnceC7 : Nat → Except Err String :=
  fun k => if k == 0 then Except.error Err.timeout else Except.ok "page"

/-- A page oracle that always fails. -/
def exAttemptsFailC7 : Nat → Except Err String :=
  fun _ => Except.error Err.connError

/-- A feed attempt oracle that fails permanently at attempt 0. -/
def exAttemptsFeedFail : Nat → Except Err HttpResponse :=
  fun _ => Except.error (Err.httpStatus 403)

/-- A feed attempt oracle agreeing with `exAttemptsFeedFail` at attempt
0 but succeeding afterwards — the feed fetcher cannot tell them apart. -/
def exAttemptsFeedFail2 : Nat → Except Err HttpResponse :=
  fun k => if k == 0 then Except.error (Err.httpStatus 403) else Except.ok exRespC7

/-- A suppression oracle that suppresses nothing (empty ledger). -/
def noneSeen : Item → Bool := fun _ => false

def exParserA : String → List Item :=
  fun s => [mkItem idMd5 "A1" s "body" "srcA" "html" [] "2025-01-07"]

def exParserB : String → List Item :=
  fun s => [mkItem idMd5 "B1" s "body" "srcB" "html" [] "2025-01-07"]

def exParserC : String → List Item :=
  fun s => [mkItem idMd5 "C1" s "body" "srcC" "html" [] "2025-01-07"]

/-- Three configured page sources whose middle fetch fails permanently
on every attempt with a 404. -/
def exSourcesC8 : List ((String → List Item) × (Nat → Except Err String)) :=
  [(exParserA, fun _ => Except.ok "h1"),
   (exParserB, fun _ => Except.error (Err.httpStatus 404)),
   (exParserC, fun _ => Except.ok "h3")]

def exRespC10 : HttpResponse :=
  { status := 200, contentType := "text/html; charset=utf-8", body := "<html>" }

def exAttemptsC10 : Nat → Except Err HttpResponse :=
  fun _ => Except.ok exRespC10

/-- A parse oracle that would yield an entry, to show it is never
consulted on the skip path. -/
def exParseC10 : String → Feed :=
  fun _ => { bozo := false,
             entries := [{ title := some "T", link := some "https://ex.org/t",
                           summary := none }] }

def exSrcC10 : Source := { name := "pageA", url := "https://ex.org/p", tags := [] }

/-! ## Helper lemmas -/

theorem insertDesc_perm (x : Item) :
    ∀ l : List Item, (insertDesc x l).Perm (x :: l) := by
  intro l
  induction l with
  | nil => simp [insertDesc]
  | cons y ys ih =>
    simp only [insertDesc]
    split
    · exact (ih.cons y).trans (List.Perm.swap x y ys)
    · exact List.Perm.refl _

theorem sortDesc_perm (l : List Item) : (sortDesc l).Perm l := by
  induction l with
  | nil => simp [sortDesc]
  | cons x xs ih =>
    simpa [sortDesc] using (insertDesc_perm x (sortDesc xs)).trans (ih.cons x)

theorem insertDesc_pairwise (x : Item) (l : List Item)
    (h : l.Pairwise (fun a b => b.fetched.toList ≤ a.fetched.toList)) :
    (insertDesc x l).Pairwise (fun a b => b.fetched.toList ≤ a.fetched.toList) := by
  induction l with
  | nil => simp [insertDesc]
  | cons y ys ih =>
    rw [List.pairwise_cons] at h
    obtain ⟨hy, hys⟩ := h
    simp only [insertDesc]
    split
    · rename_i hlt
      rw [List.pairwise_cons]
      refine ⟨fun z hz => ?_, ih hys⟩
      have hzmem : z = x ∨ z ∈ ys := by
        have := (insertDesc_perm x ys).mem_iff.mp hz
        simpa using this
      rcases hzmem with rfl | hzys
      · exact le_of_lt hlt
      · exact hy z hzys
    · rename_i hge
      push_neg at hge
      rw [List.pairwise_cons]
      refine ⟨fun z hz => ?_, List.pairwise_cons.mpr ⟨hy, hys⟩⟩
      rcases List.mem_cons.mp hz with rfl | hzys
      · exact hge
      · exact le_trans (hy z hzys) hge

theorem sortDesc_pairwise (l : List Item) :
    (sortDesc l).Pairwise (fun a b => b.fetched.toList ≤ a.fetched.toList) := by
  induction l with
  | nil => simp [sortDesc]
  | cons x xs ih => exact insertDesc_pairwise x (sortDesc xs) ih

theorem insertDesc_filter (x : Item) (k : String) :
    ∀ l : List Item,
      (insertDesc x l).filter (fun i => i.fetched == k) =
        (if x.fetched == k then
          x :: l.filter (fun i => i.fetched == k)
         else l.filter (fun i => i.fetched == k)) := by
  intro l
  induction l with
  | nil => by_cases hx : x.fetched = k <;> simp [insertDesc, hx]
  | cons y ys ih =>
    simp only [insertDesc]
    split
    · rename_i hlt
      by_cases hx : x.fetched = k
      · have hy : ¬ y.fetched = k := by
          intro hyk
          rw [hx] at hlt
          rw [hyk] at hlt
          exact lt_irrefl _ hlt
        simp [List.filter_cons, hx, hy, ih]
      · by_cases hy : y.fetched = k <;> simp [List.filter_cons, hx, hy, ih]
    · by_cases hx : x.fetched = k <;>
        by_cases hy : y.fetched = k <;>
          simp [List.filter_cons, hx, hy]

theorem sortDesc_filter (k : String) :
    ∀ l : List Item,
      (sortDesc l).filter (fun i => i.fetched == k) =
        l.filter (fun i => i.fetched == k) := by
  intro l
  induction l with
  | nil => simp [sortDesc]
  | cons x xs ih =>
    by_cases hx : x.fetched = k <;>
      simp [sortDesc, insertDesc_filter, List.filter_cons, hx, ih]

theorem find?_middle_skip (p : Entry → Bool) (e : Entry) (hpe : p e = false)
    (db1 db2 : List Entry) :
    (db1 ++ e :: db2).find? p = (db1 ++ db2).find? p := by
  simp [List.find?_append, List.find?_cons, hpe]

theorem filter_middle_skip (p : Entry → Bool) (e : Entry) (hpe : p e = false)
    (db1 db2 : List Entry) :
    (db1 ++ e :: db2).filter p = (db1 ++ db2).filter p := by
  simp [List.filter_append, List.filter_cons, hpe]

/-! ## Claims -/

/-- C1 (code evaluation at the failing input): the claim says that an
item whose fingerprint has a matching, unexpired ledger row is
suppressed by exact match regardless of the similarity comparison.  The
code disagrees: at an item whose only matching row is the unexpired
exact-match row, `is_item_seen` returns `false` for every similarity
function, because the exact-match branch falls through to the
similarity loop, which excludes the exact-match row itself and then
returns `false`. -/
theorem c1_exact_match_not_suppressed :
    exDbC1.find? (fun e => e.hash == exItemC1.hash) = some exRowC1 ∧
    50 ≤ exRowC1.expires_at ∧
    ∀ ratio : String → String → Nat,
      isItemSeen ratio exConf 50 exDbC1 exItemC1 = false :=
  ⟨by decide, by decide, fun _ => rfl⟩

/-- C2 (code evaluation at the failing input): the claim says each run
writes every surviving item into the ledger, so an immediate second run
suppresses everything.  The code contains no insert into `seen_items`
at all: the ledger after the first run is unchanged (still empty here),
and the second run surfaces the very same item again rather than zero
items. -/
theorem c2_second_run_not_suppressed :
    ∀ ratio : String → String → Nat,
      (pipelineOnce ratio exConf 50 [] [exItemC2]).2 = [] ∧
      (pipelineOnce ratio exConf 50
        ((pipelineOnce ratio exConf 50 [] [exItemC2]).2) [exItemC2]).1 = [exItemC2] :=
  fun _ => ⟨rfl, rfl⟩

/-- C3 (counterexample): the claim says an expired ledger entry never
contributes to suppressing a candidate via the similarity path.  With
the candidate gated in by its own unexpired exact-match row, adding a
same-category entry whose `expires_at` (10) is long past `now` (50) and
whose title is identical flips `is_item_seen` from `false` to `true`:
the expired entry alone suppresses the candidate. -/
theorem c3_counterexample :
    exRowExpiredC3.expires_at < 50 ∧
    isItemSeen eqRatio exConf 50 [exRowExactC3, exRowExpiredC3] exItemC3 = true ∧
    isItemSeen eqRatio exConf 50 [exRowExactC3] exItemC3 = false := by
  refine ⟨by decide, by decide, by decide⟩

/-- C3 (amended): the similarity scan considers every ledger entry of
the candidate's resolved category other than the exact-match row,
whether expired or not: whenever the candidate's own fingerprint row is
present and unexpired, any same-category entry with a different hash
whose title scores above the threshold suppresses the candidate — no
expiry condition on that entry is required. -/
theorem c3_amended_similarity_ignores_expiry
    (ratio : String → String → Nat) (conf : FeedTypes) (now : Nat)
    (db : List Entry) (item : Item) (row e : Entry)
    (hfind : db.find? (fun en => en.hash == item.hash) = some row)
    (hrow : ¬ now > row.expires_at)
    (hmem : e ∈ db)
    (htype : e.type_ = resolveFt conf item.type_)
    (hhash : e.hash ≠ item.hash)
    (hsim : confThresh conf (resolveFt conf item.type_) < ratio item.title e.title) :
    isItemSeen ratio conf now db item = true := by
  simp only [isItemSeen, hfind]
  rw [if_neg hrow]
  refine List.any_eq_true.mpr
    ⟨e.title, List.mem_map.mpr ⟨e, List.mem_filter.mpr ⟨hmem, ?_⟩, rfl⟩, ?_⟩
  · rw [Bool.and_eq_true]
    exact ⟨beq_iff_eq.mpr htype, bne_iff_ne.mpr hhash⟩
  · exact decide_eq_true hsim

/-- C3 (witness): the amended theorem applied at the counterexample's
concrete ledger: the expired identical-title entry suppresses the
candidate. -/
theorem c3_amended_witness :
    isItemSeen eqRatio exConf 50 [exRowExactC3, exRowExpiredC3] exItemC3 = true :=
  c3_amended_similarity_ignores_expiry eqRatio exConf 50
    [exRowExactC3, exRowExpiredC3] exItemC3 exRowExactC3 exRowExpiredC3
    (by decide) (by decide) (by decide) (by decide) (by decide) (by decide)

/-- C4: an item whose fingerprint-matching ledger row has `expires_at`
strictly before the current time is not suppressed: `is_item_seen`
returns `false`, for every similarity function, configuration and
ledger, so the expired item is treated as new. -/
theorem c4_expired_resurfaces
    (ratio : String → String → Nat) (conf : FeedTypes) (now : Nat)
    (db : List Entry) (item : Item) (e : Entry)
    (hfind : db.find? (fun en => en.hash == item.hash) = some e)
    (hexp : e.expires_at < now) :
    isItemSeen ratio conf now db item = false := by
  simp only [isItemSeen, hfind]
  rw [if_pos hexp]

/-- C4 (witness): at a concrete ledger whose matching row expired at 40
with the clock at 50, the item is not suppressed. -/
theorem c4_witness :
    isItemSeen zeroRatio exConf 50 [exRowC4] exItemC4 = false :=
  c4_expired_resurfaces zeroRatio exConf 50 [exRowC4] exItemC4 exRowC4
    (by decide) (by decide)

/-- C5: the fingerprint of a constructed item is a deterministic
function of `title` and `url` alone — two items built from the same
`(title, url)` pair have equal fingerprints whatever their `body`,
`source`, `type`, `tags` or `fetched` timestamp, and the fingerprint is
exactly the hash of the `title ++ "|" ++ url` payload. -/
theorem c5_fingerprint_only_title_url (md5 : String → String)
    (t u b1 b2 s1 s2 ty1 ty2 f1 f2 : String) (tg1 tg2 : List String) :
    (mkItem md5 t u b1 s1 ty1 tg1 f1).hash = (mkItem md5 t u b2 s2 ty2 tg2 f2).hash ∧
    (mkItem md5 t u b1 s1 ty1 tg1 f1).hash = calcHash md5 t u :=
  ⟨rfl, rfl⟩

/-- C6: the ranker output is the stable descending sort by the
`fetched` key, split at 6: the sorted list is a permutation of the
input, pairwise descending, with the items of every fixed `fetched` key
kept in input order (stability); the head is the first 6 and the tail
the rest, and with fewer than 6 survivors the head is everything and
the tail empty. -/
theorem c6_ranker (l : List Item) :
    (sortDesc l).Perm l ∧
    (sortDesc l).Pairwise (fun a b => b.fetched.toList ≤ a.fetched.toList) ∧
    (∀ k : String, (sortDesc l).filter (fun i => i.fetched == k) =
      l.filter (fun i => i.fetched == k)) ∧
    rankSplit none l = ((sortDesc l).take 6, (sortDesc l).drop 6) ∧
    (l.length < 6 → rankSplit none l = (sortDesc l, [])) := by
  refine ⟨sortDesc_perm l, sortDesc_pairwise l, fun k => sortDesc_filter k l, rfl, ?_⟩
  intro hlen
  have hslen : (sortDesc l).length ≤ 6 := by
    rw [(sortDesc_perm l).length_eq]
    omega
  simp [rankSplit, List.take_of_length_le hslen, List.drop_eq_nil_of_le hslen]

/-- C6 (witness): on a concrete two-item list the head is the whole
sorted list and the tail is empty. -/
theorem c6_witness :
    rankSplit none exListC6 = (sortDesc exListC6, []) :=
  (c6_ranker exListC6).2.2.2.2 (by decide)

/-- C7 (counterexample): the claim says both fetchers retry transient
failures up to 3 attempts and do not retry non-transient ones.  At an
attempt oracle whose first attempt fails with a transient timeout and
whose second would succeed with a well-formed feed, `fetch_feed`
returns no items — the retry loop would have recovered the response,
and the same oracle run without the failure yields one item — so the
feed fetcher does not retry; and at an oracle whose first attempt fails
with a non-transient 404, `fetch_html_content` succeeds on the second
attempt — so the page fetcher retries non-transient failures too. -/
theorem c7_counterexample :
    isTransient Err.timeout = true ∧
    (fetchFeed idMd5 exParseC7 exAttemptsC7 exSrcC7 "2025-01-06").1 = [] ∧
    (retryGo exAttemptsC7 0 [waitExp 0, waitExp 1]).1 = Except.ok exRespC7 ∧
    (fetchFeed idMd5 exParseC7 exOkAttemptsC7 exSrcC7 "2025-01-06").1 = [exItemC7] ∧
    isTransient (Err.httpStatus 404) = false ∧
    (fetchHtmlContent exAttempts404).1 = Except.ok "page" := by
  refine ⟨by decide, by decide, by decide, by decide, by decide, by decide⟩

/-- C7 (amended): only the page fetcher retries, and it retries every
failure: if its first attempt fails (whatever the error) and the second
succeeds it returns the second result after one backoff wait; after
three failed attempts it gives up with the final error and the two
scheduled waits.  The feed fetcher never retries: its result depends
only on attempt 0, and any failure there yields the empty per-source
result with one logged error. -/
theorem c7_amended_retry_behavior
    (f g : Nat → Except Err String) (v : String) (ea eb0 eb1 eb2 ec : Err)
    (md5 : String → String) (parse : String → Feed)
    (fa fb : Nat → Except Err HttpResponse) (src : Source) (nowIso : String) :
    (f 0 = Except.error ea → f 1 = Except.ok v →
      fetchHtmlContent f = (Except.ok v, [waitExp 0])) ∧
    (g 0 = Except.error eb0 → g 1 = Except.error eb1 → g 2 = Except.error eb2 →
      fetchHtmlContent g = (Except.error eb2, [waitExp 0, waitExp 1])) ∧
    (fa 0 = fb 0 →
      fetchFeed md5 parse fa src nowIso = fetchFeed md5 parse fb src nowIso) ∧
    (fa 0 = Except.error ec →
      fetchFeed md5 parse fa src nowIso = ([], [LogEvent.error src.name])) := by
  refine ⟨?_, ?_, ?_, ?_⟩
  · intro h0 h1
    simp [fetchHtmlContent, retryGo, h0, h1]
  · intro h0 h1 h2
    simp [fetchHtmlContent, retryGo, h0, h1, h2]
  · intro h
    simp only [fetchFeed, h]
  · intro h0
    simp [fetchFeed, h0]

/-- C7 (witness): the amended behavior at concrete oracles: the page
fetcher recovers from one failure with one backoff wait and gives up
with the final error after three failures; the feed fetcher ignores
every attempt after the first and maps a first-attempt failure to the
empty result with one logged error. -/
theorem c7_amended_witness :
    fetchHtmlContent exAttemptsOnceC7 = (Except.ok "page", [waitExp 0]) ∧
    fetchHtmlContent exAttemptsFailC7 =
      (Except.error Err.connError, [waitExp 0, waitExp 1]) ∧
    fetchFeed idMd5 exParseC7 exAttemptsFeedFail exSrcC7 "2025-01-06" =
      fetchFeed idMd5 exParseC7 exAttemptsFeedFail2 exSrcC7 "2025-01-06" ∧
    fetchFeed idMd5 exParseC7 exAttemptsFeedFail exSrcC7 "2025-01-06" =
      ([], [LogEvent.error "feedA"]) := by
  have T := c7_amended_retry_behavior exAttemptsOnceC7 exAttemptsFailC7 "page"
    Err.timeout Err.connError Err.connError Err.connError (Err.httpStatus 403)
    idMd5 exParseC7 exAttemptsFeedFail exAttemptsFeedFail2 exSrcC7 "2025-01-06"
  exact ⟨T.1 (by decide) (by decide),
    T.2.1 (by decide) (by decide) (by decide),
    T.2.2.1 (by decide),
    T.2.2.2 (by decide)⟩

/-- C8 (counterexample): the claim says a permanent failure in one
source also records one failure count for observability.  Running the
fetch-and-merge phase over three page sources whose middle fetch fails
permanently with a 404 on every attempt does return the union of the
two healthy sources' items, but the phase records nothing: the merge
loop skips the exception silently and the page-fetch path contains no
logging, so zero failure records exist, not one. -/
theorem c8_counterexample :
    isTransient (Err.httpStatus 404) = false ∧
    (runHtmlPhase noneSeen exSourcesC8).1 = exParserA "h1" ++ exParserC "h3" ∧
    (runHtmlPhase noneSeen exSourcesC8).2.length = 0 ∧
    ¬ (runHtmlPhase noneSeen exSourcesC8).2.length = 1 := by
  refine ⟨by decide, by decide, by decide, by decide⟩

/-- C8 (amended): a permanent failure in one source is isolated: with
three page sources of which the middle one fails, the merged output is
exactly the union of the two healthy sources' surviving items — the
failing source contributes zero items — and the RSS half of the merge
is unaffected by whatever happens on the page half; but no failure
count is recorded (see the counterexample). -/
theorem c8_isolation
    (seen : Item → Bool) (p1 p2 p3 : String → List Item)
    (h1 h3 : String) (e : Err)
    (rss : List (Except Err (List Item)))
    (A B : List ((String → List Item) × Except Err String)) :
    (mergeResults seen rss
        [(p1, Except.ok h1), (p2, Except.error e), (p3, Except.ok h3)]).2
      = (p1 h1).filter (fun i => !seen i) ++ (p3 h3).filter (fun i => !seen i) ∧
    (mergeResults seen rss A).1 = (mergeResults seen rss B).1 := by
  constructor
  · simp [mergeResults]
  · rfl

/-- C9: for two items whose categories resolve differently, neither is
ever suppressed via the similarity path by a ledger entry of the other
item's category: inserting such an entry (with a different hash)
anywhere into the ledger leaves the suppression verdict unchanged, even
when the titles are identical — the scan filters on the candidate's own
resolved category. -/
theorem c9_cross_category_isolated
    (ratio : String → String → Nat) (conf : FeedTypes) (now : Nat)
    (db1 db2 : List Entry) (i1 i2 : Item) (e : Entry)
    (hft : resolveFt conf i1.type_ ≠ resolveFt conf i2.type_)
    (htype : e.type_ = resolveFt conf i2.type_)
    (hhash : e.hash ≠ i1.hash) :
    isItemSeen ratio conf now (db1 ++ e :: db2) i1 =
      isItemSeen ratio conf now (db1 ++ db2) i1 := by
  have hp : (fun en => en.hash == i1.hash) e = false := by
    simp only [beq_eq_false_iff_ne]
    exact hhash
  have hq : (fun en =>
      en.type_ == resolveFt conf i1.type_ && en.hash != i1.hash) e = false := by
    have ht : (e.type_ == resolveFt conf i1.type_) = false := by
      refine beq_eq_false_iff_ne.mpr ?_
      rw [htype]
      exact Ne.symm hft
    simp [ht]
  simp only [isItemSeen,
    find?_middle_skip (fun en => en.hash == i1.hash) e hp db1 db2,
    filter_middle_skip
      (fun en => en.type_ == resolveFt conf i1.type_ && en.hash != i1.hash)
      e hq db1 db2]

/-- C9 (witness): concrete items with identical titles in
`political_news` and `sports`: adding the sports entry to the ledger
does not change the political item's verdict. -/
theorem c9_witness :
    resolveFt exConfC9 exItemI1C9.type_ ≠ resolveFt exConfC9 exItemI2C9.type_ ∧
    isItemSeen eqRatio exConfC9 50 ([exRowExactC9] ++ exRowC9 :: []) exItemI1C9 =
      isItemSeen eqRatio exConfC9 50 ([exRowExactC9] ++ []) exItemI1C9 :=
  ⟨by decide,
   c9_cross_category_isolated eqRatio exConfC9 50 [exRowExactC9] []
     exItemI1C9 exItemI2C9 exRowC9 (by decide) (by decide) (by decide)⟩

/-- C10: a feed source whose HTTP response arrives successfully but
carries a `Content-Type` containing neither `"xml"` nor `"rss"` yields
the empty item list (with one warning, no error), for every parser —
the source is skipped before any parsing happens. -/
theorem c10_non_xml_skipped
    (md5 : String → String) (parse : String → Feed)
    (f : Nat → Except Err HttpResponse) (src : Source) (nowIso : String)
    (resp : HttpResponse)
    (h0 : f 0 = Except.ok resp)
    (hst : resp.status < 400)
    (hx : strContains resp.contentType "xml" = false)
    (hr : strContains resp.contentType "rss" = false) :
    fetchFeed md5 parse f src nowIso = ([], [LogEvent.warning src.name]) := by
  have hnotle : ¬ 400 ≤ resp.status := by omega
  simp [fetchFeed, h0, hnotle, hx, hr]

/-- C10 (witness): a 200 response with `Content-Type`
`text/html; charset=utf-8`, under a parser that would produce an entry,
yields no items and one warning. -/
theorem c10_witness :
    fetchFeed idMd5 exParseC10 exAttemptsC10 exSrcC10 "2025-01-08" =
      ([], [LogEvent.warning "pageA"]) :=
  c10_non_xml_skipped idMd5 exParseC10 exAttemptsC10 exSrcC10 "2025-01-08"
    exRespC10 (by decide) (by decide) (by decide) (by decide)

end NewsPipeline
